import Mathlib

/-!
Shallow embedding of the core of the YouTube automation repository:
the staged video-production pipeline (`src/services/videoEditor.js`,
`src/modules/automation.js`, `src/utils/logger.js`) and the Bull-backed
queue service (`src/services/queue.js`).

Conventions of the embedding:
* JavaScript promises/exceptions become explicit values.
  `ErrorHandler.safeExecute(fn, context, fallback)` catches every error
  thrown by `fn` and returns `fallback` (default `null`); it never
  rethrows.  A function wrapped in `safeExecute` is therefore embedded as
  returning `Option α` (with `none` for the `null` fallback).
* The filesystem is an explicit set of paths (`FS`), threaded through the
  stages; file contents are not modelled, only presence.
* `Math.random()` results are an oracle `rand : Nat → ℚ`, one value per
  call in call order.
* The external ffmpeg renderer/concatenator/encoder either succeeds or
  fails; those outcomes are oracles in `PipelineEnv`.
-/

namespace YouTubeAuto

/-! ### Configuration (`src/config/index.js`)

`config.paths.videoOutput` defaults to `./videos/output`, `config.paths.temp`
to `./temp`. -/

def videoOutputDir : String := "./videos/output"

def tempDir : String := "./temp"

/-! ### Filesystem model -/

/-- The set of files currently present, as a list of paths. -/
abbrev FS := List String

/-- Creating/overwriting a file at path `p`. -/
def fsWrite (fs : FS) (p : String) : FS :=
  if p ∈ fs then fs else p :: fs

/-- `fs.unlink(p)`: the file at `p` is gone afterwards (an error for a
missing file is swallowed by the caller `cleanup`). -/
def fsUnlink (fs : FS) (p : String) : FS :=
  fs.filter (fun q => q ≠ p)

/-! ### JavaScript string primitives

`String.prototype.split` (string separator, no limit: non-overlapping
left-to-right matches) and `String.prototype.trim`, implemented by
structural recursion on the character list. -/

/-- The WhiteSpace/LineTerminator set trimmed by `String.prototype.trim`. -/
def jsIsSpace (c : Char) : Bool :=
  let n := c.toNat
  (9 ≤ n && n ≤ 13) || n == 32 || n == 0xA0 || n == 0x1680 ||
  (0x2000 ≤ n && n ≤ 0x200A) || n == 0x2028 || n == 0x2029 || n == 0x202F ||
  n == 0x205F || n == 0x3000 || n == 0xFEFF

/-- `s.trim()` on the character list. -/
def jsTrimChars (l : List Char) : List Char :=
  ((l.dropWhile jsIsSpace).reverse.dropWhile jsIsSpace).reverse

/-- `s.trim()`. -/
def jsTrim (s : String) : String :=
  ⟨jsTrimChars s.data⟩

/-- If `pat` is a prefix of `s`, the remainder of `s` after it. -/
def stripPrefixChars : List Char → List Char → Option (List Char)
  | [], s => some s
  | _ :: _, [] => none
  | p :: ps, c :: cs => if c = p then stripPrefixChars ps cs else none

/-- Worker for `s.split(sep)`: scans left to right, cutting at each
(non-overlapping) occurrence of `sep`; `fuel` bounds the scan by the input
length (never exhausted for a non-empty separator). -/
def jsSplitFuel (sep : List Char) : Nat → List Char → List Char → List (List Char)
  | _, [], acc => [acc.reverse]
  | 0, s, acc => [acc.reverse ++ s]
  | fuel + 1, c :: rest, acc =>
    match stripPrefixChars sep (c :: rest) with
    | some rem => acc.reverse :: jsSplitFuel sep fuel rem []
    | none => jsSplitFuel sep fuel rest (c :: acc)

/-- `s.split(sep)` for a non-empty string separator. -/
def jsSplit (s sep : String) : List String :=
  (jsSplitFuel sep.data s.data.length s.data []).map (fun l => ⟨l⟩)

/-! ### `videoEditor.js`: script segmentation -/

/-- A scene produced by `parseScript`: `{ id: index, text: sentence.trim(),
duration: 3 + Math.random() * 2 }`. -/
structure Scene where
  id : Nat
  text : String
  duration : ℚ
  deriving Repr, DecidableEq

/-- `parseScript(script)`:
split the script on the two-character separator period-space, keep the
segments whose trim is non-empty, then
`map((sentence, index) => ({ id: index, text: sentence.trim(),
duration: 3 + Math.random() * 2 }))`.  `rand index` is the value of the
`Math.random()` call made for that element. -/
def parseScript (rand : Nat → ℚ) (script : String) : List Scene :=
  let sentences := (jsSplit script ". ").filter (fun s => decide (0 < (jsTrim s).length))
  sentences.mapIdx (fun index sentence =>
    { id := index, text := jsTrim sentence, duration := 3 + rand index * 2 })

/-! ### `videoEditor.js`: filename sanitisation and output path -/

/-- Whether `c` is in the character class `[a-z0-9一-鿿]` of the
regex `/[^a-z0-9一-鿿]/gi` (the `i` flag adds `A-Z`; no other
character canonicalises into the class under non-unicode `i` matching). -/
def filenameCharOk (c : Char) : Bool :=
  (decide ('a' ≤ c) && decide (c ≤ 'z')) ||
  (decide ('A' ≤ c) && decide (c ≤ 'Z')) ||
  (decide ('0' ≤ c) && decide (c ≤ '9')) ||
  (decide (0x4e00 ≤ c.toNat) && decide (c.toNat ≤ 0x9fff))

/-- `sanitizeFilename(filename)`:
replace every character outside the class by an underscore, then
`substring(0, 100)`. -/
def sanitizeFilename (filename : String) : String :=
  ⟨((filename.data.map (fun c => if filenameCharOk c then c else '_')).take 100)⟩

/-- The output path computed in `createVideoFromScript`:
`path.join(this.outputDir, sanitizeFilename(title) + .mp4)`. -/
def outputPathFor (title : String) : String :=
  videoOutputDir ++ "/" ++ sanitizeFilename title ++ ".mp4"

/-- The per-scene segment path in `createSceneVideo`:
`path.join(tempDir, video, scene_<index>.mp4)`. -/
def scenePath (index : Nat) : String :=
  tempDir ++ "/video/scene_" ++ toString index ++ ".mp4"

/-- The concat list file in `concatenateVideos`:
`path.join(tempDir, concat_list.txt)`. -/
def concatListFile : String :=
  tempDir ++ "/concat_list.txt"

/-! ### `videoEditor.js`: pipeline stages -/

/-- Outcomes of the external ffmpeg calls: `renderOk i` is whether the
ffmpeg render of scene `i` succeeds, `concatOk` whether the concat demuxer
run succeeds, `optimizeOk`/`thumbOk` the re-encode and thumbnail
extraction; `rand` is the `Math.random()` oracle. -/
structure PipelineEnv where
  renderOk : Nat → Bool
  concatOk : Bool
  optimizeOk : Bool
  thumbOk : Bool
  rand : Nat → ℚ

/-- One renderer invocation: `createSceneVideo` feeds ffmpeg the input
`color=c=black:s=1080x1920:d=` + `Math.min(scene.duration, maxDuration)`
together with `scene.text`. -/
structure RenderCall where
  index : Nat
  text : String
  duration : ℚ
  deriving Repr, DecidableEq

/-- `createSceneVideo(scene, index, maxDuration)`: runs ffmpeg with duration
`Math.min(scene.duration, maxDuration)` writing `scene_<index>.mp4`; wrapped
in `safeExecute` with explicit fallback `null`, so a rejected ffmpeg
promise yields `null` instead of an error.  Returns the result, the new
filesystem, and the record of the renderer invocation. -/
def createSceneVideo (env : PipelineEnv) (scene : Scene) (index : Nat)
    (maxDuration : ℚ) (fs : FS) : Option String × FS × RenderCall :=
  let d := min scene.duration maxDuration
  let p := scenePath index
  if env.renderOk index then (some p, fsWrite fs p, ⟨index, scene.text, d⟩)
  else (none, fs, ⟨index, scene.text, d⟩)

/-- The `for (let i = 0; i < scenes.length; i++)` loop of
`createVideoFromScript`: renders each scene in index order, pushing each
`segmentPath` (or `null`) onto `videoSegments`. -/
def renderLoop (env : PipelineEnv) (scenes : List Scene) (budget : ℚ)
    (i : Nat) (fs : FS) : List (Option String) × FS × List RenderCall :=
  match scenes with
  | [] => ([], fs, [])
  | scene :: rest =>
    let (seg, fs2, call) := createSceneVideo env scene i budget fs
    let (segs, fs3, calls) := renderLoop env rest budget (i + 1) fs2
    (seg :: segs, fs3, call :: calls)

/-- The order in which `concatenateVideos` lists files in the concat list:
`videoPaths.filter(p => p)` (dropping the `null` segments; paths are
never the empty string, so JS truthiness is non-`null`ness). -/
def concatMergeOrder (videoPaths : List (Option String)) : List String :=
  videoPaths.filterMap id

/-- `concatenateVideos(videoPaths, outputPath)`: writes the concat list
file (one file-directive line per surviving path, in `videoPaths` order), then
runs the ffmpeg concat demuxer producing `outputPath`; wrapped in
`safeExecute` (default fallback `null`), so a failure yields `null`.
Also returns the file order written to the concat list. -/
def concatenateVideos (env : PipelineEnv) (videoPaths : List (Option String))
    (outputPath : String) (fs : FS) : Option String × FS × List String :=
  let listOrder := concatMergeOrder videoPaths
  let fs1 := fsWrite fs concatListFile
  if env.concatOk then (some outputPath, fsWrite fs1 outputPath, listOrder)
  else (none, fs1, listOrder)

/-- `cleanup(filePaths)`: for each non-`null` path, `fs.unlink` it, with
any unlink error caught and logged (`logger.warn`) rather than thrown. -/
def cleanup (filePaths : List (Option String)) (fs : FS) : FS :=
  filePaths.foldl (fun acc fp => match fp with
    | some p => fsUnlink acc p
    | none => acc) fs

/-- The data destructured from `{ ...scriptData, ...options }` in
`createVideoFromScript` (only the fields the pipeline reads). -/
structure ScriptData where
  title : String
  script : String
  deriving Repr, DecidableEq

/-- The observable outcome of one `createVideoFromScript` run: the value the
promise resolves to, the filesystem afterwards, the renderer invocations
made, and the file order written to the concat list. -/
structure PipelineRun where
  result : Option String
  fs : FS
  calls : List RenderCall
  mergeOrder : List String
  deriving Repr, DecidableEq

/-- `createVideoFromScript(scriptData, options)`: parse the script into
scenes, render each scene with per-scene cap `duration / scenes.length`,
concatenate the segments into `outputPath`, then `cleanup(videoSegments)`
and return `finalVideo`.  The whole body is wrapped in
`safeExecute` (default fallback `null`), and both
`createSceneVideo` and `concatenateVideos` already swallow their own
failures, so no stage failure ever propagates as an error. -/
def createVideoFromScript (env : PipelineEnv) (data : ScriptData)
    (duration : ℚ) (fs : FS) : PipelineRun :=
  let outputPath := outputPathFor data.title
  let scenes := parseScript env.rand data.script
  let r := renderLoop env scenes (duration / (scenes.length : ℚ)) 0 fs
  let c := concatenateVideos env r.1 outputPath r.2.1
  { result := c.1, fs := cleanup r.1 c.2.1, calls := r.2.2, mergeOrder := c.2.2 }

/-! ### `videoEditor.js`: platform optimisation and thumbnail;
`automation.js`: `createAndPublishVideo` -/

/-- JavaScript `String.prototype.replace` with a string pattern: replace the
first occurrence of `pat` by `rep`. -/
def replaceFirstChars (s pat rep : List Char) : List Char :=
  match s with
  | [] => []
  | c :: rest =>
    if pat.isPrefixOf s then rep ++ s.drop pat.length
    else c :: replaceFirstChars rest pat rep

/-- `s.replace(pat, rep)` for string `pat` (first occurrence only). -/
def jsReplace (s pat rep : String) : String :=
  ⟨replaceFirstChars s.data pat.data rep.data⟩

/-- `optimizeForPlatform(videoPath, platform)`: re-encodes into
`videoPath.replace(.mp4, _<platform>.mp4)` (first occurrence); wrapped in
`safeExecute`, failure yields `null`. -/
def optimizeForPlatform (env : PipelineEnv) (videoPath platform : String)
    (fs : FS) : Option String × FS :=
  let outputPath := jsReplace videoPath ".mp4" ("_" ++ platform ++ ".mp4")
  if env.optimizeOk then (some outputPath, fsWrite fs outputPath)
  else (none, fs)

/-- `createThumbnail(videoPath)`: extracts a frame into
`videoPath.replace(.mp4, _thumbnail.jpg)` (first occurrence); wrapped in
`safeExecute`,
failure yields `null`. -/
def createThumbnail (env : PipelineEnv) (videoPath : String) (fs : FS) :
    Option String × FS :=
  let thumbnailPath := jsReplace videoPath ".mp4" "_thumbnail.jpg"
  if env.thumbOk then (some thumbnailPath, fsWrite fs thumbnailPath)
  else (none, fs)

/-- The artifact-producing steps of `automation.js`
`createAndPublishVideo`: create the video (duration 60), throw
a video-creation-failed error if it is `null` (caught by the surrounding
`safeExecute`),
otherwise optimise for the shorts platform and extract a thumbnail from
`optimizedVideoPath || videoPath`; no file is ever deleted here.  Returns
the uploaded video path (if any) and the filesystem afterwards. -/
def createAndPublishVideoFiles (env : PipelineEnv) (data : ScriptData)
    (fs : FS) : Option String × FS :=
  let run := createVideoFromScript env data 60 fs
  match run.result with
  | none => (none, run.fs)
  | some videoPath =>
    let o := optimizeForPlatform env videoPath "shorts" run.fs
    let t := createThumbnail env (o.1.getD videoPath) o.2
    (some (o.1.getD videoPath), t.2)

/-! ### `queue.js`: the Bull-backed queue service -/

/-- A job as stored by Bull and surfaced by `getJobStatus` (the fields that
`queue.js` reads). -/
structure JobRecord where
  id : Nat
  progress : Nat
  state : String
  timestamp : Nat
  processedOn : Option Nat
  finishedOn : Option Nat
  failedReason : Option String
  returnvalue : Option String
  deriving Repr, DecidableEq

/-- The record assembled by `getJobStatus` from a found job. -/
structure JobStatus where
  id : Nat
  progress : Nat
  state : String
  createdAt : Nat
  processedAt : Option Nat
  finishedAt : Option Nat
  failedReason : Option String
  returnValue : Option String
  deriving Repr, DecidableEq

/-- One Bull queue: its stored jobs and whether it is paused. -/
structure QueueState where
  jobs : List JobRecord
  paused : Bool
  deriving Repr, DecidableEq

/-- The queue service: `this.queues`, a map from property name to queue.
`init()` registers exactly `videoGeneration`, `trendAnalysis`,
`videoUpload` and `aiProcessing`. -/
structure QueueService where
  queues : List (String × QueueState)
  deriving Repr, DecidableEq

/-- The queue names registered by `init()`. -/
def registeredQueueNames : List String :=
  ["videoGeneration", "trendAnalysis", "videoUpload", "aiProcessing"]

/-- The service as built by the constructor: the four queues, empty. -/
def initQueueService : QueueService :=
  { queues := registeredQueueNames.map (fun n => (n, { jobs := [], paused := false })) }

/-- The message of the error thrown by every queue operation when its
guard fires: a new Error with message 队列不存在 followed by the queue
name. -/
def unknownQueueError (queueName : String) : String :=
  "队列不存在: " ++ queueName

/-- The own property names of `Object.prototype`.  `this.queues` is a plain
object literal, so a property read `this.queues[queueName]` falls back to
the prototype chain: for these names it yields an inherited function (or,
for `__proto__`, the `Object.prototype` object itself) — all truthy values
that are not queues. -/
def objectProtoProps : List String :=
  ["constructor", "hasOwnProperty", "isPrototypeOf", "propertyIsEnumerable",
   "toLocaleString", "toString", "valueOf", "__defineGetter__",
   "__defineSetter__", "__lookupGetter__", "__lookupSetter__", "__proto__"]

/-- The value of the JavaScript property read `this.queues[queueName]`:
an own property (one of the registered queues), a truthy value inherited
from `Object.prototype` (not a queue), or `undefined`. -/
inductive PropValue where
  | queue (q : QueueState)
  | inherited
  | undefined
  deriving Repr, DecidableEq

/-- `this.queues[queueName]`: the own property if present, else the
inherited `Object.prototype` member for its property names, else
`undefined`. -/
def getProp (svc : QueueService) (queueName : String) : PropValue :=
  match svc.queues.lookup queueName with
  | some q => .queue q
  | none => if queueName ∈ objectProtoProps then .inherited else .undefined

/-- How a queue operation can fail: the guarded 队列不存在 error, or the
`TypeError` raised when the guard is passed by a truthy inherited property
and a queue method is then called on a non-queue value. -/
inductive QueueError where
  | unknownQueue (message : String)
  | typeError
  deriving Repr, DecidableEq

deriving instance DecidableEq for Except

/-- `queue.getJob(jobId)`: the stored job with that id, or `null`. -/
def getJob (q : QueueState) (jobId : Nat) : Option JobRecord :=
  q.jobs.find? (fun j => j.id == jobId)

/-- `getJobStatus(queueName, jobId)`: the guard
`if (!this.queues[queueName]) throw` fires only when the property read is
falsy (`undefined`); on a truthy inherited property the guard is passed
and the call `this.queues[queueName].getJob(jobId)` throws a `TypeError`;
on a registered queue it returns `null` when `getJob` finds nothing, else
the assembled status record. -/
def getJobStatus (svc : QueueService) (queueName : String) (jobId : Nat) :
    Except QueueError (Option JobStatus) :=
  match getProp svc queueName with
  | .undefined => .error (.unknownQueue (unknownQueueError queueName))
  | .inherited => .error .typeError
  | .queue q => .ok ((getJob q jobId).map (fun job =>
      { id := job.id, progress := job.progress, state := job.state,
        createdAt := job.timestamp, processedAt := job.processedOn,
        finishedAt := job.finishedOn, failedReason := job.failedReason,
        returnValue := job.returnvalue }))

/-- `getQueueStats(queueName)`: same guard as `getJobStatus` (a truthy
inherited property passes it and `queue.getWaiting()` then throws a
`TypeError`); otherwise the counts of waiting/active/completed/failed/
delayed jobs. -/
def getQueueStats (svc : QueueService) (queueName : String) :
    Except QueueError (Nat × Nat × Nat × Nat × Nat) :=
  match getProp svc queueName with
  | .undefined => .error (.unknownQueue (unknownQueueError queueName))
  | .inherited => .error .typeError
  | .queue q => .ok
      ((q.jobs.filter (fun j => j.state == "waiting")).length,
       (q.jobs.filter (fun j => j.state == "active")).length,
       (q.jobs.filter (fun j => j.state == "completed")).length,
       (q.jobs.filter (fun j => j.state == "failed")).length,
       (q.jobs.filter (fun j => j.state == "delayed")).length)

/-- Updating one named queue in the service. -/
def updateQueue (svc : QueueService) (queueName : String)
    (f : QueueState → QueueState) : QueueService :=
  { queues := svc.queues.map (fun nq => if nq.1 == queueName then (nq.1, f nq.2) else nq) }

/-- `clearQueue(queueName)`: same guard (a truthy inherited property
passes it and `.empty()` then throws a `TypeError`); otherwise
`queue.empty()`, which drops the non-active jobs. -/
def clearQueue (svc : QueueService) (queueName : String) :
    Except QueueError QueueService :=
  match getProp svc queueName with
  | .undefined => .error (.unknownQueue (unknownQueueError queueName))
  | .inherited => .error .typeError
  | .queue _ => .ok (updateQueue svc queueName (fun q =>
      { q with jobs := q.jobs.filter (fun j => j.state == "active") }))

/-- `pauseQueue(queueName)`: same guard (a truthy inherited property
passes it and `.pause()` then throws a `TypeError`); otherwise
`queue.pause()`. -/
def pauseQueue (svc : QueueService) (queueName : String) :
    Except QueueError QueueService :=
  match getProp svc queueName with
  | .undefined => .error (.unknownQueue (unknownQueueError queueName))
  | .inherited => .error .typeError
  | .queue _ => .ok (updateQueue svc queueName (fun q => { q with paused := true }))

/-- `resumeQueue(queueName)`: same guard (a truthy inherited property
passes it and `.resume()` then throws a `TypeError`); otherwise
`queue.resume()`. -/
def resumeQueue (svc : QueueService) (queueName : String) :
    Except QueueError QueueService :=
  match getProp svc queueName with
  | .undefined => .error (.unknownQueue (unknownQueueError queueName))
  | .inherited => .error .typeError
  | .queue _ => .ok (updateQueue svc queueName (fun q => { q with paused := false }))

/-! ### `queue.js`: job options and backoff -/

/-- A `backoff` option object passed to `queue.add`. -/
structure BackoffConfig where
  type : String
  delay : Nat
  deriving Repr, DecidableEq

/-- The options object passed to `queue.add`. -/
structure JobOpts where
  priority : Int
  attempts : Nat
  backoff : BackoffConfig
  removeOnComplete : Nat
  removeOnFail : Nat
  deriving Repr, DecidableEq

/-- The options `addVideoGenerationJob` passes to
`this.queues.videoGeneration.add(...)`. -/
def videoGenerationJobOpts (priority : Int) : JobOpts :=
  { priority := priority, attempts := 3,
    backoff := { type := "exponential", delay := 2000 },
    removeOnComplete := 10, removeOnFail := 5 }

/-- The options `addTrendAnalysisJob` passes to
`this.queues.trendAnalysis.add(...)`. -/
def trendAnalysisJobOpts (priority : Int) : JobOpts :=
  { priority := priority, attempts := 2,
    backoff := { type := "fixed", delay := 5000 },
    removeOnComplete := 5, removeOnFail := 3 }

/-- Modelled from the spec: the retry-delay computation that the Bull queue
library performs from the `backoff` option (the source of Bull itself is not part
of this repository).  Per the spec, the delay before retry `k + 1` (after
`k` failed attempts) is, for the `exponential` kind,
`baseDelay * 2^(attempts-1)` capped at a configured ceiling, and for the
`fixed` kind a constant `baseDelay`. -/
def backoffDelay (cfg : BackoffConfig) (ceiling : Nat) (attempts : Nat) : Nat :=
  if cfg.type == "exponential" then min (cfg.delay * 2 ^ (attempts - 1)) ceiling
  else cfg.delay

/-! ### Concrete fixtures used by witnesses and counterexamples -/

/-- A deterministic stand-in for `Math.random()`: always `0` (a legal
return value, since `Math.random()` ranges over `[0, 1)`). -/
def rand0 : Nat → ℚ := fun _ => 0

/-- An environment where every external call succeeds. -/
def envAllOk : PipelineEnv :=
  { renderOk := fun _ => true, concatOk := true, optimizeOk := true,
    thumbOk := true, rand := rand0 }

/-- An environment where the ffmpeg render of scene 1 fails and everything
else succeeds. -/
def envScene1Fails : PipelineEnv :=
  { renderOk := fun i => decide (i ≠ 1), concatOk := true, optimizeOk := true,
    thumbOk := true, rand := rand0 }

/-- A three-sentence script with its title. -/
def sampleData : ScriptData :=
  { title := "My Video", script := "Hello. World. Again" }

/-! ### Helper lemmas about the filesystem model -/

lemma mem_fsWrite {fs : FS} {p q : String} : q ∈ fsWrite fs p ↔ q ∈ fs ∨ q = p := by
  unfold fsWrite
  by_cases h : p ∈ fs
  · rw [if_pos h]
    constructor
    · exact Or.inl
    · rintro (hq | rfl)
      · exact hq
      · exact h
  · rw [if_neg h]
    simp [List.mem_cons, or_comm]

lemma mem_fsUnlink {fs : FS} {p q : String} : q ∈ fsUnlink fs p ↔ q ∈ fs ∧ q ≠ p := by
  unfold fsUnlink
  simp [List.mem_filter]

lemma mem_cleanup {filePaths : List (Option String)} {fs : FS} {q : String} :
    q ∈ cleanup filePaths fs ↔ q ∈ fs ∧ some q ∉ filePaths := by
  induction filePaths generalizing fs with
  | nil => simp [cleanup]
  | cons fp rest ih =>
    cases fp with
    | none =>
      simp only [cleanup, List.foldl_cons] at ih ⊢
      rw [ih]
      simp
    | some p =>
      simp only [cleanup, List.foldl_cons] at ih ⊢
      rw [ih, mem_fsUnlink]
      simp only [List.mem_cons, not_or, Option.some.injEq]
      tauto

/-! ### Helper lemmas about the pipeline stages -/

lemma renderLoop_spec (env : PipelineEnv) (scenes : List Scene) (budget : ℚ) :
    ∀ (i : Nat) (fs : FS),
      (renderLoop env scenes budget i fs).1 =
        (scenes.enumFrom i).map
          (fun p => if env.renderOk p.1 then some (scenePath p.1) else none) ∧
      (renderLoop env scenes budget i fs).2.2 =
        (scenes.enumFrom i).map
          (fun p => ⟨p.1, p.2.text, min p.2.duration budget⟩) := by
  induction scenes with
  | nil => intro i fs; simp [renderLoop]
  | cons scene rest ih =>
    intro i fs
    simp only [renderLoop, createSceneVideo, List.enumFrom_cons, List.map_cons]
    cases h : env.renderOk i <;>
      simp [h, (ih (i + 1) _).1, (ih (i + 1) _).2]

lemma concatenateVideos_listOrder (env : PipelineEnv) (ps : List (Option String))
    (out : String) (fs : FS) :
    (concatenateVideos env ps out fs).2.2 = concatMergeOrder ps := by
  unfold concatenateVideos
  cases env.concatOk <;> simp

lemma concatListFile_mem_concat (env : PipelineEnv) (ps : List (Option String))
    (out : String) (fs : FS) :
    concatListFile ∈ (concatenateVideos env ps out fs).2.1 := by
  unfold concatenateVideos
  cases env.concatOk <;> simp [mem_fsWrite]

lemma filterMap_ite {α β : Type _} (p : α → Bool) (f : α → β) (l : List α) :
    (l.filterMap (fun a => if p a then some (f a) else none)) = (l.filter p).map f := by
  induction l with
  | nil => rfl
  | cons a l ih =>
    cases h : p a <;> simp [List.filterMap_cons, List.filter_cons, h, ih]

lemma scenePath_ne_concatListFile (k : Nat) : scenePath k ≠ concatListFile := by
  intro h
  have h7 : (scenePath k).data[7]? = concatListFile.data[7]? := by rw [h]
  rw [show scenePath k = ("./temp/video/scene_" ++ toString k) ++ ".mp4" from rfl,
    String.data_append, String.data_append] at h7
  rw [List.getElem?_append, if_pos (by simp [List.length_append]),
    List.getElem?_append, if_pos (by decide)] at h7
  exact absurd h7 (by decide)

lemma createVideoFromScript_result (env : PipelineEnv) (data : ScriptData)
    (duration : ℚ) (fs : FS) :
    (createVideoFromScript env data duration fs).result =
      if env.concatOk then some (outputPathFor data.title) else none := by
  unfold createVideoFromScript concatenateVideos
  cases env.concatOk <;> simp

lemma createVideoFromScript_mergeOrder (env : PipelineEnv) (data : ScriptData)
    (duration : ℚ) (fs : FS) :
    (createVideoFromScript env data duration fs).mergeOrder =
      ((List.range (parseScript env.rand data.script).length).filter
        env.renderOk).map scenePath := by
  unfold createVideoFromScript
  dsimp only
  rw [concatenateVideos_listOrder,
    (renderLoop_spec env (parseScript env.rand data.script) _ 0 fs).1]
  unfold concatMergeOrder
  rw [List.filterMap_map]
  show List.filterMap
      ((fun k => if env.renderOk k then some (scenePath k) else none) ∘ Prod.fst)
      ((parseScript env.rand data.script).enumFrom 0) = _
  rw [← List.filterMap_map Prod.fst
      (fun k => if env.renderOk k then some (scenePath k) else none),
    List.enumFrom_map_fst, ← List.range_eq_range',
    filterMap_ite env.renderOk scenePath]

lemma createVideoFromScript_calls (env : PipelineEnv) (data : ScriptData)
    (duration : ℚ) (fs : FS) :
    (createVideoFromScript env data duration fs).calls =
      ((parseScript env.rand data.script).enumFrom 0).map
        (fun p => ⟨p.1, p.2.text, min p.2.duration
          (duration / ((parseScript env.rand data.script).length : ℚ))⟩) := by
  unfold createVideoFromScript
  dsimp only
  exact (renderLoop_spec env (parseScript env.rand data.script) _ 0 fs).2

/-! ### Helper lemmas about `parseScript` -/

lemma parseScript_ids (rand : Nat → ℚ) (script : String) :
    (parseScript rand script).map Scene.id =
      List.range (parseScript rand script).length := by
  unfold parseScript
  dsimp only
  rw [List.mapIdx_eq_enum_map, List.map_map, List.length_map]
  rw [show (Scene.id ∘ Function.uncurry fun index sentence =>
      { id := index, text := jsTrim sentence,
        duration := 3 + rand index * 2 : Scene }) = Prod.fst from funext fun p => rfl]
  rw [List.enum_map_fst, List.enum_length]

lemma parseScript_mem {rand : Nat → ℚ} {script : String} {scene : Scene}
    (h : scene ∈ parseScript rand script) :
    scene.duration = 3 + rand scene.id * 2 ∧ 0 < scene.text.length := by
  unfold parseScript at h
  dsimp only at h
  rw [List.mapIdx_eq_enum_map] at h
  obtain ⟨⟨i, s⟩, hmem, rfl⟩ := List.mem_map.1 h
  refine ⟨rfl, ?_⟩
  have hs := (List.mem_enumFrom hmem).2.2
  have hsl : s ∈ (jsSplit script ". ").filter
      (fun s => decide (0 < (jsTrim s).length)) := by
    rw [hs]; exact List.getElem_mem _
  have := List.of_mem_filter hsl
  simpa using this

lemma parseScript_length (rand : Nat → ℚ) (script : String) :
    (parseScript rand script).length =
      ((jsSplit script ". ").filter (fun s => decide (0 < (jsTrim s).length))).length := by
  unfold parseScript
  dsimp only
  rw [List.length_mapIdx]

/-! ### Claims -/

/-- C4: segmentation splits the script on the sentence separator, filters
out segments that are empty after trimming, and produces one Scene per
remaining sentence with consecutive indices starting at 0; in particular
the 3-sentence sample script yields exactly 3 scenes. -/
theorem claim_C4_segmentation (rand : Nat → ℚ) (script : String) :
    (parseScript rand script).map Scene.id =
      List.range (parseScript rand script).length ∧
    (parseScript rand script).length =
      ((jsSplit script ". ").filter
        (fun s => decide (0 < (jsTrim s).length))).length ∧
    (∀ scene ∈ parseScript rand script, 0 < scene.text.length) ∧
    (parseScript rand "Hello. World. Again").length = 3 := by
  refine ⟨parseScript_ids rand script, parseScript_length rand script, ?_, ?_⟩
  · intro scene h
    exact (parseScript_mem h).2
  · rw [parseScript_length]
    decide

/-- Witness for C4 at the sample script: its first scene has non-empty
text. -/
theorem claim_C4_witness :
    0 < ((parseScript rand0 "Hello. World. Again").get
      ⟨0, by rw [parseScript_length]; decide⟩).text.length :=
  (claim_C4_segmentation rand0 "Hello. World. Again").2.2.1 _
    (List.get_mem _ _ _)

/-- C10: `sanitizeFilename` is idempotent — one application already maps
every character into the allowed subset and truncates to the length
bound. -/
theorem claim_C10_sanitize_idempotent (s : String) :
    sanitizeFilename (sanitizeFilename s) = sanitizeFilename s := by
  unfold sanitizeFilename
  congr 1
  show ((((s.data.map _).take 100).map _).take 100) = (s.data.map _).take 100
  rw [List.map_take, List.take_take, Nat.min_self, List.map_map]
  congr 1
  apply List.map_congr_left
  intro c _
  by_cases h : filenameCharOk c <;> simp [Function.comp, h]

/-- C7: the output file name is a deterministic function of the title (two
successful runs with the same title resolve the same path), and the
sanitized name uses only alphanumerics, CJK characters, or underscore,
with length at most 100. -/
theorem claim_C7_output_naming (env env2 : PipelineEnv) (data : ScriptData)
    (duration duration2 : ℚ) (fs fs2 : FS) (p p2 : String) :
    ((createVideoFromScript env data duration fs).result = some p →
      (createVideoFromScript env2 data duration2 fs2).result = some p2 →
      p = p2) ∧
    ((createVideoFromScript env data duration fs).result = none ∨
      (createVideoFromScript env data duration fs).result =
        some (outputPathFor data.title)) ∧
    (∀ c ∈ (sanitizeFilename data.title).data,
      filenameCharOk c = true ∨ c = '_') ∧
    (sanitizeFilename data.title).length ≤ 100 := by
  refine ⟨?_, ?_, ?_, ?_⟩
  · intro h1 h2
    rw [createVideoFromScript_result] at h1 h2
    cases hc : env.concatOk <;> rw [hc] at h1 <;>
      cases hc2 : env2.concatOk <;> rw [hc2] at h2 <;>
        simp at h1 h2
    rw [← h1, ← h2]
  · rw [createVideoFromScript_result]
    cases env.concatOk <;> simp
  · intro c hc
    have hmem := List.mem_of_mem_take hc
    obtain ⟨a, -, rfl⟩ := List.mem_map.1 hmem
    by_cases h : filenameCharOk a
    · left; simp [h]
    · right; simp [h]
  · show ((data.title.data.map _).take 100).length ≤ 100
    rw [List.length_take]
    exact min_le_left _ _

/-- Witness for C7: two runs with the sample title resolve the same path,
and a character of the sanitized sample title is in the safe subset. -/
theorem claim_C7_witness :
    "./videos/output/My_Video.mp4" = "./videos/output/My_Video.mp4" ∧
    (filenameCharOk 'M' = true ∨ 'M' = '_') :=
  ⟨(claim_C7_output_naming envAllOk envScene1Fails sampleData 60 60 [] []
      "./videos/output/My_Video.mp4" "./videos/output/My_Video.mp4").1
      (by decide) (by decide),
   (claim_C7_output_naming envAllOk envAllOk sampleData 60 60 [] []
      "" "").2.2.1 'M' (by decide)⟩

/-- C3: the concatenation stage lists the rendered scene files in original
scene index order (the order assigned by segmentation) — the concat list
order is a function of the scene indices alone, and with every render
succeeding it is exactly scene 0, 1, 2, …; rendering in the source is a
sequential awaited loop, so no completion order can reorder it. -/
theorem claim_C3_concat_index_order (env : PipelineEnv) (data : ScriptData)
    (duration : ℚ) (fs : FS) :
    (createVideoFromScript env data duration fs).mergeOrder =
      ((List.range (parseScript env.rand data.script).length).filter
        env.renderOk).map scenePath ∧
    ((∀ i, env.renderOk i = true) →
      (createVideoFromScript env data duration fs).mergeOrder =
        (List.range (parseScript env.rand data.script).length).map
          scenePath) := by
  refine ⟨createVideoFromScript_mergeOrder env data duration fs, ?_⟩
  intro hall
  rw [createVideoFromScript_mergeOrder,
    List.filter_eq_self.2 (fun a _ => hall a)]

/-- Witness for C3 at the sample script with all renders succeeding: the
merge order is scene 0, scene 1, scene 2. -/
theorem claim_C3_witness :
    (createVideoFromScript envAllOk sampleData 60 []).mergeOrder =
      [scenePath 0, scenePath 1, scenePath 2] := by
  have h := (claim_C3_concat_index_order envAllOk sampleData 60 []).2
    (fun i => rfl)
  rw [h, show (parseScript envAllOk.rand sampleData.script).length = 3 by
    rw [parseScript_length]; decide]
  decide

/-- C1 as stated is false: with the render of scene 1 failing and every
other external call succeeding, `createVideoFromScript` does not abort and
does not propagate any error — it resolves with the final video path, and
the concatenated video silently omits scene 1. -/
theorem claim_C1_counterexample :
    (createVideoFromScript envScene1Fails sampleData 60 []).result =
      some (outputPathFor "My Video") ∧
    scenePath 1 ∉
      (createVideoFromScript envScene1Fails sampleData 60 []).mergeOrder ∧
    (createVideoFromScript envScene1Fails sampleData 60 []).mergeOrder =
      [scenePath 0, scenePath 2] := by
  exact ⟨by decide, by decide, by decide⟩

/-- C1 (amended): no stage failure is propagated as an error.
`ErrorHandler.safeExecute` converts every failure into a `null` return, so
`createVideoFromScript` resolves `some` output path exactly when the
concatenation call succeeds — irrespective of scene render failures, whose
segments are merely dropped from the concat list — and resolves `null`
(not a rejected promise) when concatenation fails. -/
theorem claim_C1_amended_no_error_propagation (env : PipelineEnv)
    (data : ScriptData) (duration : ℚ) (fs : FS) :
    (createVideoFromScript env data duration fs).result =
      (if env.concatOk then some (outputPathFor data.title) else none) ∧
    (createVideoFromScript env data duration fs).mergeOrder =
      ((List.range (parseScript env.rand data.script).length).filter
        env.renderOk).map scenePath :=
  ⟨createVideoFromScript_result env data duration fs,
   createVideoFromScript_mergeOrder env data duration fs⟩

/-- C2 as stated is false: after a fully successful automation run
(`createAndPublishVideo` with every external call succeeding), the
intermediate concat list file and the pre-optimization concatenated file
both remain on disk alongside the final artifacts (the shorts re-encode
and its thumbnail). -/
theorem claim_C2_counterexample :
    (createAndPublishVideoFiles envAllOk sampleData []).1 =
      some "./videos/output/My_Video_shorts.mp4" ∧
    concatListFile ∈ (createAndPublishVideoFiles envAllOk sampleData []).2 ∧
    outputPathFor "My Video" ∈
      (createAndPublishVideoFiles envAllOk sampleData []).2 ∧
    outputPathFor "My Video" ≠ "./videos/output/My_Video_shorts.mp4" ∧
    outputPathFor "My Video" ≠
      "./videos/output/My_Video_shorts_thumbnail.jpg" ∧
    concatListFile ≠ "./videos/output/My_Video_shorts.mp4" ∧
    concatListFile ≠ "./videos/output/My_Video_shorts_thumbnail.jpg" := by
  exact ⟨by decide, by decide, by decide, by decide, by decide, by decide,
    by decide⟩

/-- C2 (amended): after every `createVideoFromScript` run — successful or
failed — every per-scene segment file recorded in the concat list is
removed by `cleanup`, but the concat list file itself always remains, and
the concatenated output is retained as the returned artifact (the
automation layer later re-encodes it to a separate file without deleting
it). -/
theorem claim_C2_amended_cleanup (env : PipelineEnv) (data : ScriptData)
    (duration : ℚ) (fs : FS) :
    (∀ q ∈ (createVideoFromScript env data duration fs).mergeOrder,
      q ∉ (createVideoFromScript env data duration fs).fs) ∧
    concatListFile ∈ (createVideoFromScript env data duration fs).fs := by
  constructor
  · intro q hq
    unfold createVideoFromScript at hq ⊢
    dsimp only at hq ⊢
    rw [concatenateVideos_listOrder] at hq
    unfold concatMergeOrder at hq
    obtain ⟨o, ho, hid⟩ := List.mem_filterMap.1 hq
    rw [mem_cleanup]
    rintro ⟨-, hn⟩
    exact hn (hid ▸ ho)
  · unfold createVideoFromScript
    dsimp only
    rw [mem_cleanup]
    refine ⟨concatListFile_mem_concat _ _ _ _, ?_⟩
    rw [(renderLoop_spec env (parseScript env.rand data.script) _ 0 fs).1]
    intro hmem
    obtain ⟨p, -, hp⟩ := List.mem_map.1 hmem
    by_cases h : env.renderOk p.1
    · rw [if_pos h] at hp
      exact scenePath_ne_concatListFile p.1 (Option.some.inj hp)
    · rw [if_neg h] at hp
      exact Option.noConfusion hp

/-- Witness for C2 (amended) at the sample run: scene 0 was rendered and
its segment file is gone afterwards, while the concat list file remains. -/
theorem claim_C2_witness :
    scenePath 0 ∉ (createVideoFromScript envAllOk sampleData 60 []).fs ∧
    concatListFile ∈ (createVideoFromScript envAllOk sampleData 60 []).fs :=
  ⟨(claim_C2_amended_cleanup envAllOk sampleData 60 []).1 (scenePath 0)
      (by decide),
   (claim_C2_amended_cleanup envAllOk sampleData 60 []).2⟩

/-- C5 as stated is false: for the 3-sentence sample script with requested
total duration 60 the per-scene budget is 60/3 = 20, but `parseScript`
(which does not even receive the requested duration) gives every scene
duration 3 + rand*2; with rand = 0 every scene lasts 3 and the durations
sum to 9, which does not approximate 60. -/
theorem claim_C5_counterexample :
    ((parseScript rand0 "Hello. World. Again").map Scene.duration).sum = 9 ∧
    (∀ scene ∈ parseScript rand0 "Hello. World. Again",
      scene.duration = 3) ∧
    (60 : ℚ) / 3 = 20 := by
  have hmem : ∀ scene ∈ parseScript rand0 "Hello. World. Again",
      scene.duration = (3 : ℚ) := by
    intro scene h
    rw [(parseScript_mem h).1]
    show (3 : ℚ) + 0 * 2 = 3
    norm_num
  refine ⟨?_, hmem, by norm_num⟩
  rw [show (parseScript rand0 "Hello. World. Again").map Scene.duration =
      (parseScript rand0 "Hello. World. Again").map
        (Function.const Scene (3 : ℚ)) from List.map_congr_left hmem,
    List.map_const,
    show (parseScript rand0 "Hello. World. Again").length = 3 by
      rw [parseScript_length]; decide,
    List.sum_replicate]
  norm_num

/-- C5 (amended): segmentation assigns each scene the duration
`3 + Math.random() * 2` — a value in the fixed range [3, 5) independent of
the requested total duration and of the scene count; the requested
duration only caps each rendered scene later, at
`min(scene.duration, duration / sceneCount)`, and the sum of scene
durations need not approximate the requested total. -/
theorem claim_C5_amended_duration_range (rand : Nat → ℚ) (script : String) :
    (∀ scene ∈ parseScript rand script,
      scene.duration = 3 + rand scene.id * 2) ∧
    ((∀ i, 0 ≤ rand i ∧ rand i < 1) →
      ∀ scene ∈ parseScript rand script,
        3 ≤ scene.duration ∧ scene.duration < 5) := by
  constructor
  · intro scene h
    exact (parseScript_mem h).1
  · intro hr scene h
    rw [(parseScript_mem h).1]
    obtain ⟨h0, h1⟩ := hr scene.id
    constructor <;> nlinarith

/-- Witness for C5 (amended): with the zero randomness oracle the first
scene of the sample script has duration in [3, 5). -/
theorem claim_C5_witness :
    3 ≤ ((parseScript rand0 "Hello. World. Again").get
        ⟨0, by rw [parseScript_length]; decide⟩).duration ∧
    ((parseScript rand0 "Hello. World. Again").get
        ⟨0, by rw [parseScript_length]; decide⟩).duration < 5 :=
  (claim_C5_amended_duration_range rand0 "Hello. World. Again").2
    (fun _ => ⟨by simp [rand0], by simp [rand0]⟩) _ (List.get_mem _ _ _)

/-- C6: every renderer invocation receives the duration
`min(scene.duration, duration / sceneCount)`, hence at most the per-scene
budget `duration / sceneCount`; concretely, for the 3-sentence sample
script with requested duration 60 every invocation receives at most
60/3 + 2. -/
theorem claim_C6_render_duration_cap (env : PipelineEnv) (data : ScriptData)
    (duration : ℚ) (fs : FS) :
    ((createVideoFromScript env data duration fs).calls =
      ((parseScript env.rand data.script).enumFrom 0).map
        (fun p => ⟨p.1, p.2.text, min p.2.duration
          (duration / ((parseScript env.rand data.script).length : ℚ))⟩)) ∧
    (∀ call ∈ (createVideoFromScript env data duration fs).calls,
      call.duration ≤
        duration / ((parseScript env.rand data.script).length : ℚ)) ∧
    (∀ call ∈ (createVideoFromScript env sampleData 60 fs).calls,
      call.duration ≤ 60 / 3 + 2) := by
  refine ⟨createVideoFromScript_calls env data duration fs, ?_, ?_⟩
  · intro call hc
    rw [createVideoFromScript_calls] at hc
    obtain ⟨p, -, rfl⟩ := List.mem_map.1 hc
    exact min_le_right _ _
  · intro call hc
    rw [createVideoFromScript_calls] at hc
    obtain ⟨p, -, rfl⟩ := List.mem_map.1 hc
    refine le_trans (min_le_right _ _) ?_
    rw [show (parseScript env.rand sampleData.script).length = 3 by
      rw [parseScript_length]; decide]
    norm_num

/-- Witness for C6 at the sample run: the first renderer invocation
receives at most 60/3 + 2. -/
theorem claim_C6_witness :
    ((createVideoFromScript envAllOk sampleData 60 []).calls.get
      ⟨0, by decide⟩).duration ≤ 60 / 3 + 2 :=
  (claim_C6_render_duration_cap envAllOk sampleData 60 []).2.2 _
    (List.get_mem _ _ _)

lemma lookup_eq_none_of_not_mem {l : List (String × QueueState)} {k : String}
    (h : k ∉ l.map Prod.fst) : l.lookup k = none := by
  induction l with
  | nil => rfl
  | cons a l ih =>
    simp only [List.map_cons, List.mem_cons, not_or] at h
    obtain ⟨a1, a2⟩ := a
    rw [List.lookup_cons]
    have : (k == a1) = false := by
      simp only [beq_eq_false_iff_ne, ne_eq]
      exact h.1
    rw [this]
    exact ih h.2

lemma getProp_eq_undefined {svc : QueueService} {queueName : String}
    (h1 : queueName ∉ svc.queues.map Prod.fst)
    (h2 : queueName ∉ objectProtoProps) :
    getProp svc queueName = .undefined := by
  unfold getProp
  rw [lookup_eq_none_of_not_mem h1, if_neg h2]

lemma getProp_eq_inherited {svc : QueueService} {queueName : String}
    (h1 : queueName ∉ svc.queues.map Prod.fst)
    (h2 : queueName ∈ objectProtoProps) :
    getProp svc queueName = .inherited := by
  unfold getProp
  rw [lookup_eq_none_of_not_mem h1, if_pos h2]

/-- C8 as stated is false: `this.queues` is a plain object, so for a queue
name inherited from `Object.prototype` — here the unregistered name
toString — the guard `if (!this.queues[queueName])` is passed by the
truthy inherited function, and every operation then throws a `TypeError`
instead of the unknown-queue error. -/
theorem claim_C8_counterexample :
    "toString" ∉ initQueueService.queues.map Prod.fst ∧
    getJobStatus initQueueService "toString" 0 = .error .typeError ∧
    getJobStatus initQueueService "toString" 0 ≠
      .error (.unknownQueue (unknownQueueError "toString")) ∧
    getQueueStats initQueueService "toString" = .error .typeError ∧
    clearQueue initQueueService "toString" = .error .typeError ∧
    pauseQueue initQueueService "toString" = .error .typeError ∧
    resumeQueue initQueueService "toString" = .error .typeError := by
  exact ⟨by decide, by decide, by decide, by decide, by decide, by decide,
    by decide⟩

/-- C8 (amended): every queue operation (`getJobStatus`, `getQueueStats`,
`clearQueue`, `pauseQueue`, `resumeQueue`) on a queue name that is neither
registered nor an `Object.prototype` property name throws the
unknown-queue error; on an unregistered name inherited from
`Object.prototype` the guard is passed and the operation throws a
`TypeError` instead; the service registers exactly the four configured
queues; and `getJobStatus` on a registered queue with a job id that does
not exist resolves `null` rather than throwing. -/
theorem claim_C8_amended_unknown_queue (svc : QueueService)
    (queueName : String) (jobId : Nat) :
    (queueName ∉ svc.queues.map Prod.fst →
      queueName ∉ objectProtoProps →
      getJobStatus svc queueName jobId =
        .error (.unknownQueue (unknownQueueError queueName)) ∧
      getQueueStats svc queueName =
        .error (.unknownQueue (unknownQueueError queueName)) ∧
      clearQueue svc queueName =
        .error (.unknownQueue (unknownQueueError queueName)) ∧
      pauseQueue svc queueName =
        .error (.unknownQueue (unknownQueueError queueName)) ∧
      resumeQueue svc queueName =
        .error (.unknownQueue (unknownQueueError queueName))) ∧
    (queueName ∉ svc.queues.map Prod.fst →
      queueName ∈ objectProtoProps →
      getJobStatus svc queueName jobId = .error .typeError ∧
      getQueueStats svc queueName = .error .typeError ∧
      clearQueue svc queueName = .error .typeError ∧
      pauseQueue svc queueName = .error .typeError ∧
      resumeQueue svc queueName = .error .typeError) ∧
    initQueueService.queues.map Prod.fst = registeredQueueNames ∧
    (∀ q, svc.queues.lookup queueName = some q →
      (∀ j ∈ q.jobs, j.id ≠ jobId) →
      getJobStatus svc queueName jobId = .ok none) := by
  refine ⟨?_, ?_, by decide, ?_⟩
  · intro h1 h2
    have hp := getProp_eq_undefined h1 h2
    unfold getJobStatus getQueueStats clearQueue pauseQueue resumeQueue
    rw [hp]
    exact ⟨rfl, rfl, rfl, rfl, rfl⟩
  · intro h1 h2
    have hp := getProp_eq_inherited h1 h2
    unfold getJobStatus getQueueStats clearQueue pauseQueue resumeQueue
    rw [hp]
    exact ⟨rfl, rfl, rfl, rfl, rfl⟩
  · intro q hq hj
    unfold getJobStatus getProp
    rw [hq]
    dsimp only
    have hnone : getJob q jobId = none := by
      unfold getJob
      rw [List.find?_eq_none]
      intro x hx
      simpa using hj x hx
    rw [hnone]
    rfl

/-- Witness for C8 (amended) on the freshly initialised service: the
unregistered non-inherited name foo gets the unknown-queue error, the
unregistered inherited name valueOf gets a `TypeError`, and `getJobStatus`
on the registered video-generation queue with an absent job id resolves
`null`. -/
theorem claim_C8_witness :
    getJobStatus initQueueService "foo" 0 =
      .error (.unknownQueue (unknownQueueError "foo")) ∧
    getJobStatus initQueueService "valueOf" 0 = .error .typeError ∧
    getJobStatus initQueueService "videoGeneration" 0 = .ok none :=
  ⟨((claim_C8_amended_unknown_queue initQueueService "foo" 0).1
      (by decide) (by decide)).1,
   ((claim_C8_amended_unknown_queue initQueueService "valueOf" 0).2.1
      (by decide) (by decide)).1,
   (claim_C8_amended_unknown_queue initQueueService "videoGeneration" 0).2.2.2
      { jobs := [], paused := false } (by decide)
      (fun j hj => absurd hj (List.not_mem_nil j))⟩

/-- C9: `addVideoGenerationJob` configures exponential backoff with base
delay 2000 ms and 3 attempts, so under the (spec-modelled) Bull backoff
computation the delay before attempt k+1 is 2000 * 2^(k-1) capped at the
configured ceiling — the sequence 2000, 4000, 8000 — while the fixed
policy of `addTrendAnalysisJob` yields a constant delay across retries. -/
theorem claim_C9_backoff (priority : Int) (ceiling k : Nat) :
    (videoGenerationJobOpts priority).attempts = 3 ∧
    (videoGenerationJobOpts priority).backoff =
      { type := "exponential", delay := 2000 } ∧
    backoffDelay (videoGenerationJobOpts priority).backoff ceiling k =
      min (2000 * 2 ^ (k - 1)) ceiling ∧
    (8000 ≤ ceiling →
      (backoffDelay (videoGenerationJobOpts priority).backoff ceiling 1,
       backoffDelay (videoGenerationJobOpts priority).backoff ceiling 2,
       backoffDelay (videoGenerationJobOpts priority).backoff ceiling 3) =
      (2000, 4000, 8000)) ∧
    (trendAnalysisJobOpts priority).backoff =
      { type := "fixed", delay := 5000 } ∧
    backoffDelay (trendAnalysisJobOpts priority).backoff ceiling k =
      5000 := by
  refine ⟨rfl, rfl, rfl, ?_, rfl, rfl⟩
  intro h
  have e1 : backoffDelay (videoGenerationJobOpts priority).backoff
      ceiling 1 = 2000 := by
    show min (2000 * 2 ^ (1 - 1)) ceiling = 2000
    rw [show (2000 : Nat) * 2 ^ (1 - 1) = 2000 by norm_num]
    exact Nat.min_eq_left (by omega)
  have e2 : backoffDelay (videoGenerationJobOpts priority).backoff
      ceiling 2 = 4000 := by
    show min (2000 * 2 ^ (2 - 1)) ceiling = 4000
    rw [show (2000 : Nat) * 2 ^ (2 - 1) = 4000 by norm_num]
    exact Nat.min_eq_left (by omega)
  have e3 : backoffDelay (videoGenerationJobOpts priority).backoff
      ceiling 3 = 8000 := by
    show min (2000 * 2 ^ (3 - 1)) ceiling = 8000
    rw [show (2000 : Nat) * 2 ^ (3 - 1) = 8000 by norm_num]
    exact Nat.min_eq_left (by omega)
  rw [e1, e2, e3]

/-- Witness for C9 with ceiling 10000: the first three delays are 2000,
4000, 8000. -/
theorem claim_C9_witness :
    (backoffDelay (videoGenerationJobOpts 0).backoff 10000 1,
     backoffDelay (videoGenerationJobOpts 0).backoff 10000 2,
     backoffDelay (videoGenerationJobOpts 0).backoff 10000 3) =
      (2000, 4000, 8000) :=
  (claim_C9_backoff 0 10000 2).2.2.2.1 (by decide)

end YouTubeAuto
